import Mathlib
set_option maxRecDepth 10000

/-!
Verification of the Argo conversational platform RAG pipeline
(`src/rag/orchestrator.py` and `src/rag/llm.py`, both the
`argo-conversational-platform` and the `cleaned_repo` copies).

Python values are embedded shallowly: dynamic values become `PyVal`,
dictionaries become ordered association lists with Python update
semantics, machine strings become Lean `String`s with explicit
character-list operations, and Python exceptions become `Except String`.
External collaborators (the Gemini model, the JSON decoder of the
standard library, the semantic-search capability, the relational store
and the wall clock) are passed in as explicit environment records, so
that every theorem quantifies over their behaviour.
-/

/-- Shallow embedding of a dynamic (Python) value.  `vFloat` carries an
exact rational: the claims only ever store, compare and count floats, so
no rounding behaviour is modelled.  Python `bool` is a subclass of
`int`, which matters for `isinstance(v, (int, float))` checks. -/
inductive PyVal where
  | vNone : PyVal
  | vBool (b : Bool) : PyVal
  | vInt (n : Int) : PyVal
  | vFloat (q : ℚ) : PyVal
  | vStr (s : String) : PyVal
  | vList (items : List PyVal) : PyVal
  | vDict (entries : List (String × PyVal)) : PyVal

/-- A Python dict with string keys, as an insertion-ordered association
list.  All dicts built by the modelled code have pairwise distinct keys. -/
abbrev PyDict := List (String × PyVal)

/-- `d.get(k)` returning `none` when the key is absent. -/
def pyGetOpt (d : PyDict) (k : String) : Option PyVal :=
  (d.find? (fun p => p.1 == k)).map (fun p => p.2)

/-- `d.get(k, default)`. -/
def pyGetD (d : PyDict) (k : String) (default : PyVal) : PyVal :=
  (pyGetOpt d k).getD default

/-- `k in d` for a dict. -/
def dictHasKey (d : PyDict) (k : String) : Bool :=
  d.any (fun p => p.1 == k)

/-- `d[k] = v`: replace the value in place when the key exists (keeping
its position, as a Python dict does), else append the new pair. -/
def dictSet : PyDict → String → PyVal → PyDict
  | [], k, v => [(k, v)]
  | p :: rest, k, v => if p.1 == k then (k, v) :: rest else p :: dictSet rest k v

/-- `dict(pairs)`: left-to-right insertion with Python update semantics. -/
def pyDictOf (l : List (String × PyVal)) : PyDict :=
  l.foldl (fun d p => dictSet d p.1 p.2) []

/-- Python truthiness. -/
def pyTruthy : PyVal → Bool
  | .vNone => false
  | .vBool b => b
  | .vInt n => n != 0
  | .vFloat q => q != 0
  | .vStr s => !s.isEmpty
  | .vList l => !l.isEmpty
  | .vDict d => !d.isEmpty

/-- `isinstance(v, (int, float))`; `True`/`False` are `int`s in Python. -/
def isNumVal : PyVal → Bool
  | .vInt _ => true
  | .vFloat _ => true
  | .vBool _ => true
  | _ => false

/-- Whether a dynamic value is a dict. -/
def isDictVal : PyVal → Bool
  | .vDict _ => true
  | _ => false

/-- Use a dynamic value as a dict; anything else raises (the Python code
would fail with `AttributeError`/`TypeError` at the first dict method). -/
def asDict : PyVal → Except String PyDict
  | .vDict d => .ok d
  | _ => .error "TypeError: expected a dict"

/-- Use a dynamic value as a string; anything else raises at the first
`str` method call (`AttributeError`). -/
def asStr : PyVal → Except String String
  | .vStr s => .ok s
  | _ => .error "AttributeError: expected a str"

/-- Iterate a dynamic value (`list.extend` argument): lists yield their
items, strings their characters, dicts their keys; the rest raise
`TypeError`. -/
def asIterable : PyVal → Except String (List PyVal)
  | .vList l => .ok l
  | .vStr s => .ok (s.data.map (fun c => PyVal.vStr (String.mk [c])))
  | .vDict d => .ok (d.map (fun p => PyVal.vStr p.1))
  | _ => .error "TypeError: not iterable"

/-- `v == lit` for a string literal `lit`: in Python only another string
can compare equal to a string. -/
def pyEqStr (v : PyVal) (lit : String) : Bool :=
  match v with
  | .vStr s => s == lit
  | _ => false

/-- `v > q` against a numeric literal; non-numbers raise `TypeError`. -/
def pyGtQ (v : PyVal) (q : ℚ) : Except String Bool :=
  match v with
  | .vInt n => .ok (decide (q < (n : ℚ)))
  | .vFloat x => .ok (decide (q < x))
  | .vBool b => .ok (decide (q < (if b then (1 : ℚ) else 0)))
  | _ => .error "TypeError: unorderable types"

/-- `str(v)` for the scalar values the claims exercise; container and
float formatting is never reached by any theorem below and is not
modelled beyond a placeholder. -/
def pyStr : PyVal → String
  | .vStr s => s
  | .vInt n => toString n
  | .vBool true => "True"
  | .vBool false => "False"
  | .vNone => "None"
  | .vFloat _ => "<float>"
  | .vList _ => "<list>"
  | .vDict _ => "<dict>"

/-- `s.lower()` (ASCII case folding, as `Char.toLower`). -/
def lowerStr (s : String) : String := ⟨s.data.map Char.toLower⟩

/-- `s.strip()`: drop whitespace from both ends. -/
def stripStr (s : String) : String :=
  ⟨((s.data.dropWhile fun c => c.isWhitespace).reverse.dropWhile
      fun c => c.isWhitespace).reverse⟩

/-- Python substring test `sub in s`. -/
def pySubstr (sub s : String) : Bool := decide (sub.data <:+: s.data)

/-- `s.startswith(p)`. -/
def pyStartsWith (s p : String) : Bool := decide (p.data <+: s.data)

/-- `s.find(c)`: index of the first occurrence, `-1` when absent. -/
def strFindChar (s : String) (c : Char) : Int :=
  match s.data.findIdx? (fun x => x == c) with
  | some i => (i : Int)
  | none => -1

/-- `s.rfind(c)`: index of the last occurrence, `-1` when absent. -/
def strRfindChar (s : String) (c : Char) : Int :=
  match s.data.reverse.findIdx? (fun x => x == c) with
  | some i => (s.data.length : Int) - 1 - (i : Int)
  | none => -1

/-- `s[a:b]` for `0 ≤ a` (Python slicing clamps the upper bound). -/
def strSlice (s : String) (a b : Int) : String :=
  ⟨(s.data.drop a.toNat).take (b - a).toNat⟩

/-- The string values of a list; a non-string element raises (as
`str.join` does). -/
def strValues : List PyVal → Except String (List String)
  | [] => .ok []
  | PyVal.vStr s :: rest => do
      let tl ← strValues rest
      pure (s :: tl)
  | _ :: _ => .error "TypeError: sequence item is not a str"

/-- `sep.join(values)`: every element must be a string. -/
def joinStrs (sep : String) (l : List PyVal) : Except String String := do
  let ss ← strValues l
  pure (String.intercalate sep ss)

/-! ## SQL safety validator (`orchestrator.py`, `_validate_sql_safety`) -/

/-- The forbidden-operation keywords, in source order. -/
def forbidden_keywords : List String :=
  ["delete", "update", "insert", "drop", "create", "alter",
   "truncate", "exec", "execute", "grant", "revoke"]

/-- `_validate_sql_safety(sql_query)`: lower-case and strip, require a
`select` start, reject any forbidden keyword as a substring, require a
`limit` or `top` substring. -/
def validate_sql_safety (sql_query : String) : Bool :=
  let sql_lower := stripStr (lowerStr sql_query)
  if !pyStartsWith sql_lower "select" then false
  else if forbidden_keywords.any (fun k => pySubstr k sql_lower) then false
  else if !pySubstr "limit" sql_lower && !pySubstr "top" sql_lower then false
  else true

/-! ## Deterministic fallback SQL of `llm.py` -/

/-- The count query `_parse_sql_response` falls back to when no JSON can
be extracted from the model response. -/
def count_fallback_sql : String :=
  "SELECT COUNT(*) as total_profiles FROM argo_profiles WHERE qc_flag = \x271\x27"

/-- The fallback `SQLGenerationResult` of `_parse_sql_response`. -/
def sql_fallback_dict : PyDict :=
  [("sql", .vStr count_fallback_sql),
   ("explanation", .vStr "Count of quality-controlled Argo profiles"),
   ("estimated_rows", .vInt 1),
   ("safety_checks", .vList [.vStr "basic count query"])]

/-- The SQL text of `_mock_sql_generation`, exactly as in the source
(a Python triple-quoted string with its indentation). -/
def mock_sql_text : String :=
  "\n            SELECT \n                p.latitude, p.longitude, p.profile_date,\n                AVG(m.temperature) as avg_temp,\n                AVG(m.salinity) as avg_salinity\n            FROM argo_profiles p\n            JOIN argo_measurements m ON p.id = m.profile_id\n            WHERE p.latitude BETWEEN -40 AND 30\n            AND p.longitude BETWEEN -90 AND 90\n            AND p.qc_flag = \x271\x27\n            AND m.temperature_qc = \x271\x27\n            GROUP BY p.id\n            LIMIT 100\n            "

/-- `_mock_sql_generation(query_analysis)` (the analysis is unused). -/
def mock_sql_generation (_query_analysis : PyDict) : PyDict :=
  [("sql", .vStr mock_sql_text),
   ("explanation", .vStr "Recent temperature and salinity profiles from Indian Ocean"),
   ("estimated_rows", .vInt 100),
   ("safety_checks", .vList [.vStr "read-only", .vStr "QC filtered", .vStr "limited results"])]

/-! ## Substring facts used to state the validator contract -/

theorem infixRevIff {α} {l₁ l₂ : List α} : l₁.reverse <:+: l₂.reverse ↔ l₁ <:+: l₂ :=
  List.reverse_infix

/-- A whitespace-free pattern occurs in a list iff it occurs after the
leading whitespace is dropped. -/
theorem infix_dropWhile_ws_iff (k l : List Char)
    (hk : ∀ c ∈ k, c.isWhitespace = false) :
    k <:+: l.dropWhile (fun c => c.isWhitespace) ↔ k <:+: l := by
  induction l with
  | nil => simp
  | cons c t ih =>
    rw [List.dropWhile_cons]
    by_cases hc : c.isWhitespace = true
    · rw [if_pos hc, ih]
      constructor
      · intro h
        exact List.infix_cons_iff.mpr (Or.inr h)
      · intro h
        rcases List.infix_cons_iff.mp h with hp | ht
        · cases k with
          | nil => simp
          | cons k0 ks =>
            rcases List.cons_prefix_cons.mp hp with ⟨hk0, _⟩
            have hf := hk k0 (List.mem_cons_self _ _)
            rw [hk0, hc] at hf
            exact absurd hf (by simp)
        · exact ht
    · rw [if_neg hc]

/-- A whitespace-free pattern occurs in a string iff it occurs in the
stripped string. -/
theorem infix_strip_iff (k s : String)
    (hk : ∀ c ∈ k.data, c.isWhitespace = false) :
    k.data <:+: (stripStr s).data ↔ k.data <:+: s.data := by
  have hrev : ∀ c ∈ k.data.reverse, c.isWhitespace = false := by
    intro c hc
    exact hk c (List.mem_reverse.mp hc)
  have h1 : (stripStr s).data
      = (((s.data.dropWhile fun c => c.isWhitespace).reverse.dropWhile
          fun c => c.isWhitespace)).reverse := rfl
  rw [h1]
  constructor
  · intro h
    have h2 : k.data.reverse <:+:
        ((s.data.dropWhile fun c => c.isWhitespace).reverse.dropWhile
          fun c => c.isWhitespace) := by
      rw [← List.reverse_reverse k.data] at h
      exact infixRevIff.mp (by simpa using h)
    have h3 := (infix_dropWhile_ws_iff _ _ hrev).mp h2
    have h4 : k.data <:+: s.data.dropWhile fun c => c.isWhitespace :=
      infixRevIff.mp (by simpa using h3)
    exact (infix_dropWhile_ws_iff _ _ hk).mp h4
  · intro h
    have h4 : k.data <:+: s.data.dropWhile fun c => c.isWhitespace :=
      (infix_dropWhile_ws_iff _ _ hk).mpr h
    have h3 : k.data.reverse <:+:
        (s.data.dropWhile fun c => c.isWhitespace).reverse :=
      infixRevIff.mpr h4
    have h2 := (infix_dropWhile_ws_iff _ _ hrev).mpr h3
    exact infixRevIff.mp (by simpa using h2)

/-- Boolean shape of the validator. -/
theorem validator_bool_shape (a b c d : Bool) :
    (if !a then false else if b then false else if !c && !d then false else true) = true
      ↔ (a = true ∧ b = false ∧ (c = true ∨ d = true)) := by
  cases a <;> cases b <;> cases c <;> cases d <;> simp


/-- C1: `_validate_sql_safety(sql)` returns true iff (1) the trimmed,
lower-cased statement starts with `select`, (2) the lower-cased
statement contains no forbidden keyword as a substring anywhere, and
(3) the lower-cased statement contains `limit` or `top` as a substring. -/
theorem C1_validate_sql_safety_iff (s : String) :
    validate_sql_safety s = true ↔
      ("select".data <+: (stripStr (lowerStr s)).data ∧
       (∀ k ∈ forbidden_keywords, ¬ k.data <:+: (lowerStr s).data) ∧
       ("limit".data <:+: (lowerStr s).data ∨ "top".data <:+: (lowerStr s).data)) := by
  have hws : ∀ k ∈ forbidden_keywords, ∀ c ∈ k.data, c.isWhitespace = false := by decide
  have hlim : ∀ c ∈ "limit".data, c.isWhitespace = false := by decide
  have htop : ∀ c ∈ "top".data, c.isWhitespace = false := by decide
  have hv : validate_sql_safety s =
      (if !pyStartsWith (stripStr (lowerStr s)) "select" then false
       else if forbidden_keywords.any (fun k => pySubstr k (stripStr (lowerStr s))) then false
       else if !pySubstr "limit" (stripStr (lowerStr s))
               && !pySubstr "top" (stripStr (lowerStr s)) then false
       else true) := rfl
  rw [hv, validator_bool_shape]
  constructor
  · rintro ⟨h1, h2, h3⟩
    refine ⟨by simpa [pyStartsWith] using h1, ?_, ?_⟩
    · intro k hk hinf
      have : pySubstr k (stripStr (lowerStr s)) = true := by
        simpa [pySubstr] using (infix_strip_iff k (lowerStr s) (hws k hk)).mpr hinf
      have := List.any_eq_false.mp h2 k hk
      simp_all
    · rcases h3 with h | h
      · exact Or.inl ((infix_strip_iff _ _ hlim).mp (by simpa [pySubstr] using h))
      · exact Or.inr ((infix_strip_iff _ _ htop).mp (by simpa [pySubstr] using h))
  · rintro ⟨h1, h2, h3⟩
    refine ⟨by simpa [pyStartsWith] using h1, ?_, ?_⟩
    · rw [List.any_eq_false]
      intro k hk
      have hnot := h2 k hk
      simp only [pySubstr, decide_eq_true_eq]
      rw [infix_strip_iff k (lowerStr s) (hws k hk)]
      exact fun h => hnot h
    · rcases h3 with h | h
      · exact Or.inl (by
          simpa [pySubstr] using (infix_strip_iff _ _ hlim).mpr h)
      · exact Or.inr (by
          simpa [pySubstr] using (infix_strip_iff _ _ htop).mpr h)

/-- C3 counterexample: the deterministic count-query fallback of
`_parse_sql_response` is rejected by `_validate_sql_safety` (it contains
neither `limit` nor `top`), refuting the claim that every fallback SQL
passes validation. -/
theorem C3_count_fallback_rejected :
    validate_sql_safety count_fallback_sql = false := by decide

/-- C3 amended: of the two deterministic fallback SQL texts, the mock
query of `_mock_sql_generation` passes `_validate_sql_safety`, but the
count query of `_parse_sql_response` fails it, so the count fallback is
not executed and yields the safety-validation error instead. -/
theorem C3_fallback_validation :
    validate_sql_safety mock_sql_text = true ∧
      validate_sql_safety count_fallback_sql = false := by
  constructor <;> decide

/-! ## `llm.py`: query understanding and its fallbacks

The Gemini client and the standard-library JSON decoder are external
collaborators; they are modelled as an environment record.  `jsonLoadsDict`
returns a dict or raises: a non-dict JSON toplevel would make the later
`analysis[...] = ...` item assignment raise, landing in the same
exception fallback, so restricting the oracle to dicts loses no
behaviour relevant to the claims. -/
structure LLMEnv where
  modelAvailable : Bool
  genAsync : String → Except String String
  jsonLoadsDict : String → Except String PyDict

/-- The fixed fallback analysis of `_parse_understanding_response`. -/
def understanding_default : PyDict :=
  [("intent", .vStr "information"),
   ("entities", .vDict []),
   ("language", .vStr "en"),
   ("complexity", .vStr "simple"),
   ("requires_visualization", .vBool false)]

/-- `_mock_query_understanding(user_query)` (the query is unused by the
`cleaned_repo` copy of the method). -/
def mock_query_understanding (_user_query : String) : PyDict :=
  [("intent", .vStr "data_query"),
   ("entities", .vDict
     [("geographic_region", .vStr "Indian Ocean"),
      ("time_period", .vStr "recent"),
      ("parameters", .vList [.vStr "temperature", .vStr "salinity"]),
      ("data_type", .vStr "profiles")]),
   ("language", .vStr "en"),
   ("complexity", .vStr "simple"),
   ("requires_visualization", .vBool true),
   ("geographic_bounds", .vDict
     [("lat_min", .vFloat (-40)), ("lat_max", .vFloat 30),
      ("lon_min", .vFloat (-90)), ("lon_max", .vFloat 90)])]

/-- `_create_understanding_prompt(user_query)`, the exact f-string of the
source (literal braces written with escapes). -/
def create_understanding_prompt (user_query : String) : String :=
  "\nYou are an expert oceanographic data analyst specializing in Argo float data. \nAnalyze the following user query and extract key information.\n\nUser Query: \"" ++ user_query ++ "\"\n\nPlease analyze and respond with JSON containing:\n\x7b\n    \"intent\": \"data_query|visualization|export|information|greeting\",\n    \"entities\": \x7b\n        \"geographic_region\": \"extracted region name or coordinates\",\n        \"time_period\": \"extracted date range or relative time\",\n        \"parameters\": [\"temperature\", \"salinity\", \"pressure\", \"depth\"],\n        \"float_ids\": [\"specific float IDs if mentioned\"],\n        \"data_type\": \"profiles|measurements|summaries|floats\"\n    \x7d,\n    \"language\": \"en|hi|auto\",\n    \"complexity\": \"simple|moderate|complex\",\n    \"requires_visualization\": true/false,\n    \"geographic_bounds\": \x7b\n        \"lat_min\": number,\n        \"lat_max\": number,\n        \"lon_min\": number,\n        \"lon_max\": number\n    \x7d\n\x7d\n\nFocus on Indian Ocean region by default. Handle both English and Hindi queries.\n"

/-- `_parse_understanding_response(response)`: extract the text between
the first `\x7b` and the last `\x7d`, decode it, and fall back to the fixed
default analysis on any failure. -/
def parse_understanding_response (env : LLMEnv) (response : String) : PyDict :=
  let attempt : Except String PyDict :=
    let start := strFindChar response '\x7b'
    let stop := strRfindChar response '\x7d' + 1
    if 0 ≤ start ∧ start < stop then
      env.jsonLoadsDict (strSlice response start stop)
    else
      .error "ValueError: No JSON found in response"
  match attempt with
  | .ok d => d
  | .error _ => understanding_default

/-- `_parse_sql_response(response)`: same extraction, falling back to
the deterministic count query. -/
def parse_sql_response (env : LLMEnv) (response : String) : PyDict :=
  let attempt : Except String PyDict :=
    let start := strFindChar response '\x7b'
    let stop := strRfindChar response '\x7d' + 1
    if 0 ≤ start ∧ start < stop then
      env.jsonLoadsDict (strSlice response start stop)
    else
      .error "ValueError: No JSON found in response"
  match attempt with
  | .ok d => d
  | .error _ => sql_fallback_dict

/-- `understand_query` as in `cleaned_repo/.../src/rag/llm.py`: no
`original_query` is ever attached.  The conversation-history write is
side-effect only (its exceptions are swallowed inside
`_store_conversation`) and does not influence the returned analysis. -/
def understand_query_cleaned (env : LLMEnv) (user_query _session_id : String) : PyDict :=
  if !env.modelAvailable then
    mock_query_understanding user_query
  else
    match env.genAsync (create_understanding_prompt user_query) with
    | .ok response => parse_understanding_response env response
    | .error _ => mock_query_understanding user_query

/-- `understand_query` as in `argo-conversational-platform/src/rag/llm.py`:
`analysis[\x27original_query\x27] = user_query` on every return path. -/
def understand_query_main (env : LLMEnv) (user_query _session_id : String) : PyDict :=
  if !env.modelAvailable then
    dictSet (mock_query_understanding user_query) "original_query" (.vStr user_query)
  else
    match env.genAsync (create_understanding_prompt user_query) with
    | .ok response =>
        dictSet (parse_understanding_response env response) "original_query"
          (.vStr user_query)
    | .error _ =>
        dictSet (mock_query_understanding user_query) "original_query" (.vStr user_query)

/-- The fixed mock response text of `_mock_response_generation`. -/
def mock_response_generation : String :=
  "\nBased on recent Argo float data from the Indian Ocean region, I found several oceanographic profiles. \nThe data shows temperature and salinity measurements from various depths and locations.\n\nKey findings:\n- Temperature ranges from 2°C to 29°C across different depths\n- Salinity values are typically between 34.5 and 36.5 PSU\n- Data quality is good (QC flag = 1)\n\nThis data comes from the global Argo float network and is updated regularly. \nWould you like me to show you specific depth profiles or temperature trends?\n"

/-! ## Dict update lemmas -/

theorem pyGetOpt_dictSet_self (d : PyDict) (k : String) (v : PyVal) :
    pyGetOpt (dictSet d k v) k = some v := by
  induction d with
  | nil => simp [dictSet, pyGetOpt, List.find?]
  | cons p rest ih =>
    by_cases h : p.1 == k
    · simp [dictSet, h, pyGetOpt, List.find?]
    · simp only [dictSet, h, if_false, Bool.false_eq_true]
      simpa [pyGetOpt, List.find?, h] using ih

theorem pyGetOpt_dictSet_ne (d : PyDict) (k k' : String) (v : PyVal)
    (h : k' ≠ k) :
    pyGetOpt (dictSet d k v) k' = pyGetOpt d k' := by
  have hne : (k == k') = false := beq_eq_false_iff_ne.mpr (Ne.symm h)
  induction d with
  | nil => simp [dictSet, pyGetOpt, List.find?, hne]
  | cons p rest ih =>
    by_cases hp : p.1 == k
    · have hpk : p.1 = k := by simpa using hp
      have : (k == k') = false := by
        simpa using fun hkk => h hkk.symm
      simp [dictSet, hp, pyGetOpt, List.find?, this, hpk,
        show (p.1 == k') = false by simpa [hpk] using fun hkk => h hkk.symm]
    · by_cases hq : p.1 == k'
      · simp [dictSet, hp, pyGetOpt, List.find?, hq]
      · simp only [dictSet, hp, if_false, Bool.false_eq_true]
        simpa [pyGetOpt, List.find?, hq] using ih

/-! ## `orchestrator.py`: the RAG pipeline

External collaborators of `ArgoRAGSystem`: the three LLM capabilities,
the semantic-search capability, the relational store, and the wall
clock (session-id fallback timestamp, response timestamp and measured
processing time). -/
structure OrchEnv where
  understand : String → String → Except String PyDict
  generateSql : PyDict → Except String PyDict
  generateResponse : PyDict → Option (List PyDict) → List PyVal → Except String String
  semanticSearch : String → Nat → List (String × String) → Except String (List PyVal)
  dbExec : String → Except String (List String × List (List PyVal))
  sessionNow : String
  nowIso : String
  procTimeMs : ℚ

/-- `result[k]` item access on a dynamic value. -/
def pyGetItem (r : PyVal) (k : String) : Except String PyVal :=
  match r with
  | .vDict d =>
      match pyGetOpt d k with
      | some v => .ok v
      | none => .error "KeyError"
  | _ => .error "TypeError: object is not subscriptable"

/-- `region.lower().replace(\x27 \x27, \x27_\x27)`. -/
def regionKey (s : String) : String :=
  ⟨(s.data.map Char.toLower).map (fun c => if c = ' ' then '_' else c)⟩

/-- The `try` block of `_execute_sql_safely`.  A non-string `sql` value
raises (`AttributeError` at `.lower()`) inside the block, exactly as in
the source. -/
def execute_sql_safely_body
    (db : String → Except String (List String × List (List PyVal)))
    (sql_response : PyDict) :
    Except String (Option (List PyDict) × Option PyDict) := do
  let sql_query ← asStr (pyGetD sql_response "sql" (.vStr ""))
  if !validate_sql_safety sql_query then
    return (none, some [("error", .vStr "Query failed safety validation")])
  let (columns, rows) ← db sql_query
  let data := rows.map (fun row => pyDictOf (columns.zip row))
  let metadata : PyDict :=
    [("query", .vStr sql_query),
     ("explanation", pyGetD sql_response "explanation" .vNone),
     ("rows_returned", .vInt (data.length : Int)),
     ("safety_checks", pyGetD sql_response "safety_checks" (.vList []))]
  return (some data, some metadata)

/-- `_execute_sql_safely(sql_response)`: any exception of the block is
converted to `(None, \x7b\x27error\x27: str(e)\x7d)`. -/
def execute_sql_safely
    (db : String → Except String (List String × List (List PyVal)))
    (sql_response : PyDict) : Option (List PyDict) × Option PyDict :=
  match execute_sql_safely_body db sql_response with
  | .ok r => r
  | .error e => (none, some [("error", .vStr e)])

/-- The list comprehension of `_retrieve_context`: keep
`result[\x27similarity\x27] > 0.3` contents in order; a missing key or a
non-numeric similarity raises. -/
def contextFilter : List PyVal → Except String (List PyVal)
  | [] => .ok []
  | result :: rest => do
      let sim ← pyGetItem result "similarity"
      let keep ← pyGtQ sim (3 / 10)
      if keep then do
        let content ← pyGetItem result "content"
        let tl ← contextFilter rest
        pure (content :: tl)
      else contextFilter rest

/-- The search-phrase and filter construction of `_retrieve_context`:
region, parameters and data type in order, space-joined with the
`oceanographic data` fallback for an empty term list, and the optional
normalized `region` filter. -/
def buildSearchArgs (entities : PyDict) :
    Except String (String × List (String × String)) := do
  let st1 : List PyVal :=
    if dictHasKey entities "geographic_region" then
      [pyGetD entities "geographic_region" .vNone]
    else []
  let st2 ←
    if dictHasKey entities "parameters" then do
      let ps ← asIterable (pyGetD entities "parameters" .vNone)
      pure (st1 ++ ps)
    else pure st1
  let search_terms :=
    st2 ++ (if dictHasKey entities "data_type" then
      [pyGetD entities "data_type" .vNone] else [])
  let search_query ←
    if !search_terms.isEmpty then joinStrs " " search_terms
    else pure "oceanographic data"
  let filters ←
    if pyTruthy (pyGetD entities "geographic_region" .vNone) then do
      let region ← asStr (pyGetD entities "geographic_region" .vNone)
      pure [("region", regionKey region)]
    else pure ([] : List (String × String))
  pure (search_query, filters)

/-- The `try` block of `_retrieve_context`. -/
def retrieve_context_body (env : OrchEnv) (query_analysis : PyDict) :
    Except String (List PyVal) := do
  let entities ← asDict (pyGetD query_analysis "entities" (.vDict []))
  let args ← buildSearchArgs entities
  let search_results ← env.semanticSearch args.1 5 args.2
  contextFilter search_results

/-- `_retrieve_context(query_analysis)`: any exception yields `[]`. -/
def retrieve_context (env : OrchEnv) (query_analysis : PyDict) : List PyVal :=
  match retrieve_context_body env query_analysis with
  | .ok ctx => ctx
  | .error _ => []

/-- `\x27 & \x27.join(parameters[:2])` of `_generate_viz_title`: a list is
sliced and joined (items must be strings), a string is sliced to its
first two characters and joined character-wise, anything else raises. -/
def joinAmpFirstTwo : PyVal → Except String String
  | .vList l => do
      let ss ← (l.take 2).mapM (fun v =>
        match v with
        | PyVal.vStr s => Except.ok s
        | _ => Except.error "TypeError: sequence item is not a str")
      pure (String.intercalate " & " ss)
  | .vStr s =>
      pure (String.intercalate " & " ((s.data.take 2).map (fun c => String.mk [c])))
  | _ => .error "TypeError: value is not subscriptable"

/-- `_generate_viz_title(query_analysis)`; raises propagate to the
caller inside the `try` of `_create_visualization_spec`. -/
def generate_viz_title (query_analysis : PyDict) : Except String String := do
  let entities ← asDict (pyGetD query_analysis "entities" (.vDict []))
  let parts1 : List String ←
    if pyTruthy (pyGetD entities "parameters" .vNone) then do
      let joined ← joinAmpFirstTwo (pyGetD entities "parameters" .vNone)
      pure [joined]
    else pure []
  let parts2 :=
    parts1 ++ (if pyTruthy (pyGetD entities "geographic_region" .vNone) then
      ["in " ++ pyStr (pyGetD entities "geographic_region" .vNone)] else [])
  let parts3 :=
    parts2 ++ (if pyTruthy (pyGetD entities "time_period" .vNone) then
      ["(" ++ pyStr (pyGetD entities "time_period" .vNone) ++ ")"] else [])
  pure (if !parts3.isEmpty then String.intercalate " " parts3
        else "Argo Data Visualization")

/-- `next((col for col in ...), None)` made into a `PyVal`. -/
def optColVal : Option String → PyVal
  | some c => .vStr c
  | none => .vNone

/-- The column-role flags of `_create_visualization_spec`: exact
membership of the literal names in the column list (`col in columns`
over a Python list is an equality membership test). -/
def hasCoordinates (columns : List String) : Bool :=
  ["latitude", "longitude", "lat", "lon"].any (fun col => columns.contains col)

/-- Temporal-role flag, exact membership. -/
def hasTemporal (columns : List String) : Bool :=
  ["date", "time", "profile_date"].any (fun col => columns.contains col)

/-- Depth-role flag, exact membership. -/
def hasDepth (columns : List String) : Bool :=
  ["depth", "pressure"].any (fun col => columns.contains col)

/-- The pure part of the `_create_visualization_spec` block: the base
spec dict and the branch dispatch (coordinates, else depth, else
temporal, else the scatter default), with the per-branch column pickers
by lower-cased substring. -/
def vizSpecCore (sample_row : PyDict) (sql_results : List PyVal) : PyDict :=
  let columns := sample_row.map (fun p => p.1)
  let base : PyDict :=
    [("type", .vStr "scatter"),
     ("data", .vList (sql_results.take 100)),
     ("columns", .vList (columns.map PyVal.vStr))]
  if hasCoordinates columns then
    let v := dictSet base "type" (.vStr "map")
    let v := dictSet v "lat_column"
      (optColVal (columns.find? (fun col => pySubstr "lat" (lowerStr col))))
    let v := dictSet v "lon_column"
      (optColVal (columns.find? (fun col => pySubstr "lon" (lowerStr col))))
    let numeric_cols := (sample_row.filter (fun p =>
      isNumVal p.2 && !pySubstr "lat" (lowerStr p.1)
        && !pySubstr "lon" (lowerStr p.1))).map (fun p => p.1)
    match numeric_cols with
    | [] => v
    | c :: _ => dictSet v "color_column" (.vStr c)
  else if hasDepth columns then
    let v := dictSet base "type" (.vStr "profile")
    let depthCol := optColVal (columns.find? (fun col =>
      pySubstr "depth" (lowerStr col) || pySubstr "pressure" (lowerStr col)))
    let v := dictSet v "depth_column" depthCol
    let param_cols := (sample_row.filter (fun p =>
      isNumVal p.2 && !pyEqStr depthCol p.1)).map (fun p => p.1)
    dictSet v "parameter_columns" (.vList ((param_cols.take 3).map PyVal.vStr))
  else if hasTemporal columns then
    let v := dictSet base "type" (.vStr "timeseries")
    let v := dictSet v "time_column"
      (optColVal (columns.find? (fun col =>
        pySubstr "date" (lowerStr col) || pySubstr "time" (lowerStr col))))
    let value_cols := (sample_row.filter (fun p => isNumVal p.2)).map (fun p => p.1)
    dictSet v "value_columns" (.vList ((value_cols.take 2).map PyVal.vStr))
  else base

/-- The `try` block of `_create_visualization_spec`: inspect the first
row, build the branch spec, then attach `title` and `data_count`. -/
def vizBody (query_analysis : PyDict) (sql_results : List PyVal) :
    Except String PyDict := do
  let sample_row ←
    match sql_results with
    | [] => Except.error "IndexError: list index out of range"
    | r :: _ => asDict r
  let spec := vizSpecCore sample_row sql_results
  let title ← generate_viz_title query_analysis
  let spec := dictSet spec "title" (.vStr title)
  pure (dictSet spec "data_count" (.vInt (sql_results.length : Int)))

/-- `_create_visualization_spec(query_analysis, sql_results)`: `None`
for an empty row list, and `None` whenever the block raises. -/
def create_visualization_spec (query_analysis : PyDict)
    (sql_results : List PyVal) : Option PyDict :=
  if sql_results.isEmpty then none
  else
    match vizBody query_analysis sql_results with
    | .ok d => some d
    | .error _ => none

/-- `_create_error_response(error_message, session_id)`. -/
def create_error_response (env : OrchEnv) (error_message session_id : String) :
    PyDict :=
  [("response_text", .vStr
      ("I apologize, but I encountered an error processing your query: "
        ++ error_message
        ++ ". Please try rephrasing your question or ask for help with Argo data queries.")),
   ("error", .vStr error_message),
   ("session_id", .vStr session_id),
   ("timestamp", .vStr env.nowIso),
   ("processing_time_ms", .vInt 0)]

/-- `query_analysis.get(\x27intent\x27) in [\x27data_query\x27, \x27visualization\x27]`. -/
def intentIsData (query_analysis : PyDict) : Bool :=
  pyEqStr (pyGetD query_analysis "intent" .vNone) "data_query"
    || pyEqStr (pyGetD query_analysis "intent" .vNone) "visualization"

/-- Truthiness of the `sql_results` variable (`None` or a row list). -/
def truthyRows : Option (List PyDict) → Bool
  | none => false
  | some l => !l.isEmpty

/-- Step 3 of `process_query`: conditional SQL generation and execution. -/
def sqlStep (env : OrchEnv) (query_analysis : PyDict) :
    Except String (Option (List PyDict) × Option PyDict) :=
  if intentIsData query_analysis then
    match env.generateSql query_analysis with
    | .error e => .error e
    | .ok sql_response => .ok (execute_sql_safely env.dbExec sql_response)
  else .ok (none, none)

/-- Steps 5 and onward of `process_query`: the visualization decision
and the `complete_response` dict, in source field order. -/
def assemble_response (env : OrchEnv) (query_analysis : PyDict)
    (response_text : String) (sql_results : Option (List PyDict))
    (sql_metadata : Option PyDict) (context : List PyVal)
    (session_id : String) : PyDict :=
  let viz_spec :=
    if pyTruthy (pyGetD query_analysis "requires_visualization" .vNone)
        && truthyRows sql_results then
      create_visualization_spec query_analysis
        ((sql_results.getD []).map PyVal.vDict)
    else none
  [("response_text", .vStr response_text),
   ("query_analysis", .vDict query_analysis),
   ("context_sources", .vInt (context.length : Int)),
   ("sql_metadata",
     match sql_metadata with
     | some d => PyVal.vDict d
     | none => PyVal.vNone),
   ("data_results",
     match sql_results with
     | some l => if l.isEmpty then PyVal.vNone
                 else PyVal.vList ((l.take 10).map PyVal.vDict)
     | none => PyVal.vNone),
   ("total_data_rows", .vInt
     (match sql_results with
      | some l => (l.length : Int)
      | none => 0)),
   ("visualization",
     match viz_spec with
     | some d => PyVal.vDict d
     | none => PyVal.vNone),
   ("processing_time_ms", .vFloat env.procTimeMs),
   ("session_id", .vStr session_id),
   ("timestamp", .vStr env.nowIso)]

/-- The `try` block of `process_query`: understanding, context
retrieval, conditional SQL, response generation and assembly.  Any
`.error` models an exception propagating to the `except` clause. -/
def process_query_attempt (env : OrchEnv) (user_query session_id : String) :
    Except String PyDict :=
  match env.understand user_query session_id with
  | .error e => .error e
  | .ok query_analysis =>
    let context := retrieve_context env query_analysis
    match sqlStep env query_analysis with
    | .error e => .error e
    | .ok (sql_results, sql_metadata) =>
      match env.generateResponse query_analysis sql_results context with
      | .error e => .error e
      | .ok response_text =>
          .ok (assemble_response env query_analysis response_text sql_results
                sql_metadata context session_id)

/-- The session id actually used: the given one, or the generated
`session_<now>` fallback when the caller passed none. -/
def resolveSessionId (env : OrchEnv) : Option String → String
  | none => "session_" ++ env.sessionNow
  | some s => s

/-- `process_query(user_query, session_id)`: generate a fallback session
id when none is given, run the pipeline, and catch every exception into
`_create_error_response`. -/
def process_query (env : OrchEnv) (user_query : String)
    (session_id : Option String) : PyDict :=
  let sid := resolveSessionId env session_id
  match process_query_attempt env user_query sid with
  | .ok resp => resp
  | .error e => create_error_response env e sid

/-- C2: `_execute_sql_safely` never raises and returns a pair on every
path: when the validator rejects the statement the fixed
safety-validation error pair is returned for every store behaviour (the
store is never consulted); when the store raises, the pair is
`(None, dict with error = str(e))`; otherwise the rows are the ordered
column-to-value zips and `rows_returned` is the row count. -/
theorem C2_execute_sql_safely_spec (r : PyDict) (s : String)
    (hs : pyGetD r "sql" (.vStr "") = .vStr s) :
    (∀ db, validate_sql_safety s = false →
        execute_sql_safely db r
          = (none, some [("error", .vStr "Query failed safety validation")])) ∧
    (∀ db e, validate_sql_safety s = true → db s = .error e →
        execute_sql_safely db r = (none, some [("error", .vStr e)])) ∧
    (∀ db columns rows, validate_sql_safety s = true →
        db s = .ok (columns, rows) →
        execute_sql_safely db r
          = (some (rows.map (fun row => pyDictOf (columns.zip row))),
             some [("query", .vStr s),
                   ("explanation", pyGetD r "explanation" .vNone),
                   ("rows_returned", .vInt (rows.length : Int)),
                   ("safety_checks", pyGetD r "safety_checks" (.vList []))])) := by
  refine ⟨?_, ?_, ?_⟩
  · intro db hval
    simp [execute_sql_safely, execute_sql_safely_body, hs, asStr, hval,
      Bind.bind, Except.bind, Functor.map, Except.map, pure, Except.pure]
  · intro db e hval hdb
    simp [execute_sql_safely, execute_sql_safely_body, hs, asStr, hval, hdb,
      Bind.bind, Except.bind, Functor.map, Except.map, pure, Except.pure]
  · intro db columns rows hval hdb
    simp [execute_sql_safely, execute_sql_safely_body, hs, asStr, hval, hdb,
      Bind.bind, Except.bind, Functor.map, Except.map, pure, Except.pure]

/-- Request used by the C2 witness. -/
def c2_request : PyDict := [("sql", .vStr "select a from t limit 5")]

/-- C2 witness: the success branch at a concrete request and store. -/
theorem C2_execute_sql_safely_spec_witness :
    execute_sql_safely (fun _ => .ok (["a"], [[.vInt 1], [.vInt 2]])) c2_request
      = (some [[("a", .vInt 1)], [("a", .vInt 2)]],
         some [("query", .vStr "select a from t limit 5"),
               ("explanation", .vNone),
               ("rows_returned", .vInt 2),
               ("safety_checks", .vList [])]) :=
  (C2_execute_sql_safely_spec c2_request "select a from t limit 5" rfl).2.2
    (fun _ => .ok (["a"], [[.vInt 1], [.vInt 2]])) ["a"] [[.vInt 1], [.vInt 2]]
    (by decide) rfl

/-- C10: the visualization synthesizer catches every exception of its
body: a first row that is not a column-to-value mapping makes the body
raise, and the method returns `None` instead of propagating. -/
theorem C10_viz_catches (qa : PyDict) (v : PyVal) (rest : List PyVal)
    (h : isDictVal v = false) :
    create_visualization_spec qa (v :: rest) = none := by
  cases v with
  | vDict d => exact absurd h (by simp [isDictVal])
  | vNone => rfl
  | vBool b => rfl
  | vInt n => rfl
  | vFloat q => rfl
  | vStr s => rfl
  | vList l => rfl

/-- C10 witness: a string first row yields `None`. -/
theorem C10_viz_catches_witness :
    isDictVal (.vStr "oops") = false ∧
      create_visualization_spec [] [.vStr "oops", .vStr "x"] = none :=
  ⟨rfl, C10_viz_catches [] (.vStr "oops") [.vStr "x"] rfl⟩

/-! ## Field extraction for the visualization spec -/

theorem vizSpecCore_data (sample_row : PyDict) (res : List PyVal) :
    pyGetOpt (vizSpecCore sample_row res) "data" = some (.vList (res.take 100)) := by
  unfold vizSpecCore
  simp only []
  split
  · split <;> rfl
  · split
    · rfl
    · split <;> rfl

theorem vizSpecCore_columns (sample_row : PyDict) (res : List PyVal) :
    pyGetOpt (vizSpecCore sample_row res) "columns"
      = some (.vList ((sample_row.map (fun p => p.1)).map PyVal.vStr)) := by
  unfold vizSpecCore
  simp only []
  split
  · split <;> rfl
  · split
    · rfl
    · split <;> rfl

theorem vizSpecCore_type (sample_row : PyDict) (res : List PyVal) :
    pyGetOpt (vizSpecCore sample_row res) "type"
      = some (.vStr
          (if hasCoordinates (sample_row.map (fun p => p.1)) then "map"
           else if hasDepth (sample_row.map (fun p => p.1)) then "profile"
           else if hasTemporal (sample_row.map (fun p => p.1)) then "timeseries"
           else "scatter")) := by
  unfold vizSpecCore
  simp only []
  split
  · split <;> rfl
  · split
    · rfl
    · split <;> rfl

theorem vizBody_ok (qa : PyDict) (row : PyDict) (rest : List PyVal)
    (t : String) (ht : generate_viz_title qa = .ok t) :
    vizBody qa (.vDict row :: rest)
      = .ok (dictSet
          (dictSet (vizSpecCore row (.vDict row :: rest)) "title" (.vStr t))
          "data_count" (.vInt (((PyVal.vDict row :: rest).length : ℕ) : Int))) := by
  simp [vizBody, asDict, ht, Bind.bind, Except.bind, pure, Except.pure]

/-- C7: the synthesizer returns `None` on an empty row list; on a
non-empty row list (first row a record) it returns a spec whose `data`
is the row list capped at 100 (length `min n 100`), whose `data_count`
is the pre-truncation count `n`, and whose `columns` is the full
column-name list of the first row. -/
theorem C7_viz_truncation (qa : PyDict) (row : PyDict) (rest : List PyVal)
    (t : String) (ht : generate_viz_title qa = .ok t) :
    create_visualization_spec qa [] = none ∧
    ∃ spec, create_visualization_spec qa (.vDict row :: rest) = some spec ∧
      pyGetOpt spec "data" = some (.vList ((PyVal.vDict row :: rest).take 100)) ∧
      ((PyVal.vDict row :: rest).take 100).length
        = min (PyVal.vDict row :: rest).length 100 ∧
      pyGetOpt spec "data_count"
        = some (.vInt (((PyVal.vDict row :: rest).length : ℕ) : Int)) ∧
      pyGetOpt spec "columns"
        = some (.vList ((row.map (fun p => p.1)).map PyVal.vStr)) := by
  refine ⟨rfl, ?_⟩
  refine ⟨dictSet
      (dictSet (vizSpecCore row (.vDict row :: rest)) "title" (.vStr t))
      "data_count" (.vInt (((PyVal.vDict row :: rest).length : ℕ) : Int)),
    ?_, ?_, ?_, ?_, ?_⟩
  · simp [create_visualization_spec, vizBody_ok qa row rest t ht]
  · rw [pyGetOpt_dictSet_ne _ _ _ _ (by decide),
      pyGetOpt_dictSet_ne _ _ _ _ (by decide), vizSpecCore_data]
  · rw [List.length_take, Nat.min_comm]
  · rw [pyGetOpt_dictSet_self]
  · rw [pyGetOpt_dictSet_ne _ _ _ _ (by decide),
      pyGetOpt_dictSet_ne _ _ _ _ (by decide), vizSpecCore_columns]

/-- A concrete coordinate row for the C7 witness. -/
def c7_row : PyDict := [("latitude", .vFloat 10), ("longitude", .vFloat 70)]

/-- C7 witness: 150 coordinate rows yield a spec with 100 data rows and
`data_count = 150`. -/
theorem C7_viz_truncation_witness :
    generate_viz_title [] = .ok "Argo Data Visualization" ∧
    (create_visualization_spec [] (.vDict c7_row :: List.replicate 149 (.vDict c7_row)) = none → False) ∧
    ∃ spec,
      create_visualization_spec []
          (.vDict c7_row :: List.replicate 149 (.vDict c7_row)) = some spec ∧
      pyGetOpt spec "data"
        = some (.vList ((PyVal.vDict c7_row :: List.replicate 149 (.vDict c7_row)).take 100)) ∧
      ((PyVal.vDict c7_row :: List.replicate 149 (.vDict c7_row)).take 100).length
        = min (PyVal.vDict c7_row :: List.replicate 149 (.vDict c7_row)).length 100 ∧
      pyGetOpt spec "data_count"
        = some (.vInt (((PyVal.vDict c7_row :: List.replicate 149 (.vDict c7_row)).length : ℕ) : Int)) ∧
      pyGetOpt spec "columns"
        = some (.vList ((c7_row.map (fun p => p.1)).map PyVal.vStr)) := by
  have h := C7_viz_truncation [] c7_row (List.replicate 149 (.vDict c7_row))
    "Argo Data Visualization" rfl
  refine ⟨rfl, ?_, h.2⟩
  rcases h.2 with ⟨spec, hs, _⟩
  intro hnone
  rw [hs] at hnone
  exact Option.noConfusion hnone

/-- Helper: the `type` field of an optional visualization spec. -/
def vizTypeField : Option PyDict → Option PyVal
  | some spec => pyGetOpt spec "type"
  | none => none

/-- A row whose column names contain `lat`/`lon` only case-insensitively
as substrings, not as exact lower-case member names. -/
def c4_row : PyDict := [("Latitude", .vFloat 21), ("Longitude", .vFloat 64)]

/-- C4 counterexample: under the claimed case-insensitive substring
scan, `Latitude`/`Longitude` columns would set `has_coordinates` and
force `type = map`; the code computes the flags by exact membership of
the literal names and yields the `scatter` default instead. -/
theorem C4_substring_scan_refuted :
    vizTypeField (create_visualization_spec [] [.vDict c4_row])
      = some (.vStr "scatter") ∧
    vizTypeField (create_visualization_spec [] [.vDict c4_row])
      ≠ some (.vStr "map") := by
  have h : vizTypeField (create_visualization_spec [] [.vDict c4_row])
      = some (.vStr "scatter") := rfl
  refine ⟨h, ?_⟩
  rw [h]
  intro hc
  exact absurd (PyVal.vStr.inj (Option.some.inj hc)) (by decide)

/-- C4 amended: the three role flags are computed by exact (case
sensitive) membership of the literal names `latitude`/`longitude`/
`lat`/`lon`, `depth`/`pressure`, `date`/`time`/`profile_date` in the
column list of the first row, and are resolved in the fixed priority
order coordinates → depth → temporal → scatter; in particular rows with
both coordinate and depth columns yield `type = map`. -/
theorem C4_type_membership_dispatch (qa : PyDict) (row : PyDict)
    (rest : List PyVal) (t : String) (ht : generate_viz_title qa = .ok t) :
    ∃ spec, create_visualization_spec qa (.vDict row :: rest) = some spec ∧
      pyGetOpt spec "type" = some (.vStr
        (if hasCoordinates (row.map (fun p => p.1)) then "map"
         else if hasDepth (row.map (fun p => p.1)) then "profile"
         else if hasTemporal (row.map (fun p => p.1)) then "timeseries"
         else "scatter")) ∧
      (hasCoordinates (row.map (fun p => p.1)) = true →
        hasDepth (row.map (fun p => p.1)) = true →
        pyGetOpt spec "type" = some (.vStr "map")) := by
  refine ⟨dictSet
      (dictSet (vizSpecCore row (.vDict row :: rest)) "title" (.vStr t))
      "data_count" (.vInt (((PyVal.vDict row :: rest).length : ℕ) : Int)),
    ?_, ?_, ?_⟩
  · simp [create_visualization_spec, vizBody_ok qa row rest t ht]
  · rw [pyGetOpt_dictSet_ne _ _ _ _ (by decide),
      pyGetOpt_dictSet_ne _ _ _ _ (by decide), vizSpecCore_type]
  · intro hc hd
    rw [pyGetOpt_dictSet_ne _ _ _ _ (by decide),
      pyGetOpt_dictSet_ne _ _ _ _ (by decide), vizSpecCore_type, hc]
    simp

/-- A row with both an exact coordinate column and an exact depth
column. -/
def c4_both_row : PyDict :=
  [("latitude", .vFloat 5), ("depth", .vFloat 100)]

/-- C4 witness: a row with both `latitude` and `depth` columns gives
`type = map` (coordinates win over depth). -/
theorem C4_type_membership_dispatch_witness :
    generate_viz_title [] = .ok "Argo Data Visualization" ∧
    ∃ spec, create_visualization_spec [] [.vDict c4_both_row] = some spec ∧
      pyGetOpt spec "type" = some (.vStr
        (if hasCoordinates (c4_both_row.map (fun p => p.1)) then "map"
         else if hasDepth (c4_both_row.map (fun p => p.1)) then "profile"
         else if hasTemporal (c4_both_row.map (fun p => p.1)) then "timeseries"
         else "scatter")) ∧
      (hasCoordinates (c4_both_row.map (fun p => p.1)) = true →
        hasDepth (c4_both_row.map (fun p => p.1)) = true →
        pyGetOpt spec "type" = some (.vStr "map")) :=
  ⟨rfl, C4_type_membership_dispatch [] c4_both_row [] "Argo Data Visualization" rfl⟩

/-! ## Context retrieval facts -/

theorem strValues_map (ss : List String) :
    strValues (ss.map PyVal.vStr) = .ok ss := by
  induction ss with
  | nil => rfl
  | cons s tl ih =>
    simp [strValues, ih, Bind.bind, Except.bind, pure, Except.pure]

/-- Analysis whose entities carry a region, parameters and a data type. -/
def c9_analysis (g : String) (ps : List String) (d : String) : PyDict :=
  [("entities", .vDict
    [("geographic_region", .vStr g),
     ("parameters", .vList (ps.map PyVal.vStr)),
     ("data_type", .vStr d)])]

/-- Well-formed search results: content strings with rational scores. -/
def c9_results (rs : List (String × ℚ)) : List PyVal :=
  rs.map (fun r => PyVal.vDict [("content", .vStr r.1), ("similarity", .vFloat r.2)])

theorem contextFilter_results (rs : List (String × ℚ)) :
    contextFilter (c9_results rs)
      = .ok ((rs.filter (fun r => decide ((3 : ℚ)/10 < r.2))).map
          (fun r => PyVal.vStr r.1)) := by
  induction rs with
  | nil => rfl
  | cons r tl ih =>
    simp only [c9_results] at ih ⊢
    by_cases hk : (3 : ℚ)/10 < r.2
    · simp [contextFilter, pyGetItem, pyGetOpt, List.find?, pyGtQ,
        ih, hk, List.filter_cons, Bind.bind, Except.bind, pure, Except.pure]
    · simp [contextFilter, pyGetItem, pyGetOpt, List.find?, pyGtQ,
        ih, hk, List.filter_cons, Bind.bind, Except.bind, pure, Except.pure]

theorem buildSearchArgs_c9 (g d : String) (ps : List String) (hg : g ≠ "") :
    buildSearchArgs
        [("geographic_region", .vStr g),
         ("parameters", .vList (ps.map PyVal.vStr)),
         ("data_type", .vStr d)]
      = .ok (String.intercalate " " (g :: (ps ++ [d])), [("region", regionKey g)]) := by
  have hie : g.isEmpty = false := by
    cases h : g.isEmpty
    · rfl
    · exact absurd ((String.isEmpty_iff g).mp h) hg
  have hjoin : strValues (PyVal.vStr g :: (ps.map PyVal.vStr ++ [PyVal.vStr d]))
      = .ok (g :: (ps ++ [d])) := by
    have := strValues_map (g :: (ps ++ [d]))
    simpa using this
  simp [buildSearchArgs, dictHasKey, pyGetD, pyGetOpt, List.find?, asIterable,
    joinStrs, hjoin, pyTruthy, hie, asStr,
    Bind.bind, Except.bind, pure, Except.pure]

/-- C9: the retriever returns exactly the contents of results scoring
strictly above 0.3, in order; the search phrase is region, parameters
and data type joined by spaces, or the literal `oceanographic data`
when the term list is empty; and any raise (search included) yields the
empty list. -/
theorem C9_retrieve_context_spec (env : OrchEnv) (g d : String)
    (ps : List String) (rs : List (String × ℚ)) (e : String)
    (hg : g ≠ "")
    (hsearch : env.semanticSearch (String.intercalate " " (g :: (ps ++ [d]))) 5
        [("region", regionKey g)] = .ok (c9_results rs)) :
    retrieve_context env (c9_analysis g ps d)
      = (rs.filter (fun r => decide ((3 : ℚ)/10 < r.2))).map
          (fun r => PyVal.vStr r.1) ∧
    (∀ env2 : OrchEnv,
        env2.semanticSearch "oceanographic data" 5 [] = .ok (c9_results rs) →
        retrieve_context env2 []
          = (rs.filter (fun r => decide ((3 : ℚ)/10 < r.2))).map
              (fun r => PyVal.vStr r.1)) ∧
    (∀ (env3 : OrchEnv) (qa : PyDict),
        (∀ q n f, env3.semanticSearch q n f = .error e) →
        retrieve_context env3 qa = []) := by
  refine ⟨?_, ?_, ?_⟩
  · simp [retrieve_context, retrieve_context_body, c9_analysis, asDict,
      pyGetD, pyGetOpt, List.find?, buildSearchArgs_c9 g d ps hg, hsearch,
      contextFilter_results, Bind.bind, Except.bind, pure, Except.pure]
  · intro env2 hsearch2
    have hargs : buildSearchArgs [] = .ok ("oceanographic data", []) := rfl
    simp [retrieve_context, retrieve_context_body, asDict, pyGetD, pyGetOpt,
      List.find?, hargs, hsearch2, contextFilter_results,
      Bind.bind, Except.bind, pure, Except.pure]
  · intro env3 qa hfail
    unfold retrieve_context retrieve_context_body
    simp only [Bind.bind, Except.bind, pure, Except.pure]
    cases hent : asDict (pyGetD qa "entities" (.vDict [])) with
    | error msg => simp
    | ok entities =>
      cases hargs : buildSearchArgs entities with
      | error msg => simp [hargs]
      | ok args => simp [hargs, hfail]

/-- Environment for the C9 witness: search always returns one result
above and one below the threshold. -/
def c9_env : OrchEnv where
  understand := fun _ _ => .error "unused"
  generateSql := fun _ => .error "unused"
  generateResponse := fun _ _ _ => .error "unused"
  semanticSearch := fun _ _ _ =>
    .ok (c9_results [("doc high", 1/2), ("doc low", 1/10)])
  dbExec := fun _ => .error "unused"
  sessionNow := "t"
  nowIso := "t"
  procTimeMs := 0

/-- C9 witness: only the above-threshold content is returned. -/
theorem C9_retrieve_context_spec_witness :
    retrieve_context c9_env (c9_analysis "Bay of Bengal" ["temperature"] "profiles")
      = [PyVal.vStr "doc high"] :=
  ((C9_retrieve_context_spec c9_env "Bay of Bengal" "profiles" ["temperature"]
    [("doc high", 1/2), ("doc low", 1/10)] "down" (by decide) rfl).1).trans
    (by norm_num [List.filter_cons])

/-! ## Orchestrator-level theorems -/

/-- C5 amended part: `understand_query` of
`argo-conversational-platform/src/rag/llm.py` attaches
`original_query = user_query` on the mock path, the success path and
the exception-fallback path, for every model/decoder behaviour. -/
theorem C5_original_query_main_copy (env : LLMEnv) (q sid : String) :
    pyGetOpt (understand_query_main env q sid) "original_query"
      = some (.vStr q) := by
  unfold understand_query_main
  cases env.modelAvailable
  · simp [pyGetOpt_dictSet_self]
  · cases env.genAsync (create_understanding_prompt q) <;>
      simp [pyGetOpt_dictSet_self]

/-- Model-unavailable Gemini environment. -/
def c5_llm_env : LLMEnv where
  modelAvailable := false
  genAsync := fun _ => .error "model unavailable"
  jsonLoadsDict := fun _ => .error "model unavailable"

/-- The cleaned pipeline composed end-to-end: understanding wired to the
`cleaned_repo` `understand_query`, SQL generation and response wired to
the model-unavailable mocks of the same module, search and store down. -/
def c5_env : OrchEnv where
  understand := fun q s => .ok (understand_query_cleaned c5_llm_env q s)
  generateSql := fun qa => .ok (mock_sql_generation qa)
  generateResponse := fun _ _ _ => .ok mock_response_generation
  semanticSearch := fun _ _ _ => .error "search backend unavailable"
  dbExec := fun _ => .error "database unavailable"
  sessionNow := "2025-09-03T00:00:00"
  nowIso := "2025-09-03T00:00:01"
  procTimeMs := 5

/-- The `query_analysis.k` field of an orchestrated response. -/
def queryAnalysisField (resp : PyDict) (k : String) : Option PyVal :=
  match pyGetOpt resp "query_analysis" with
  | some (.vDict d) => pyGetOpt d k
  | _ => none

/-- C5 counterexample: the `cleaned_repo` copy of `understand_query`
(the one `orchestrator.py` imports) never attaches `original_query`, so
on the mock-understanding path `process_query` returns an analysis with
no `original_query` field at all. -/
theorem C5_counterexample_cleaned :
    queryAnalysisField (process_query c5_env "any query" (some "s1"))
        "original_query" = none ∧
    queryAnalysisField (process_query c5_env "any query" (some "s1"))
        "original_query" ≠ some (.vStr "any query") := by
  have h : queryAnalysisField (process_query c5_env "any query" (some "s1"))
      "original_query" = none := by rfl
  exact ⟨h, by rw [h]; exact fun hc => Option.noConfusion hc⟩

/-- C8: whenever the orchestrated sequence raises an exception `e` that
no inner handler recovered, `process_query` still returns the fixed
apology response: templated `response_text` embedding `str(e)`, `error`
equal to `str(e)`, the input (or generated) session id, and
`processing_time_ms = 0`. -/
theorem C8_error_response (env : OrchEnv) (q : String) (sid : Option String)
    (e : String)
    (h : process_query_attempt env q (resolveSessionId env sid) = .error e) :
    process_query env q sid
      = [("response_text", .vStr
            ("I apologize, but I encountered an error processing your query: "
              ++ e
              ++ ". Please try rephrasing your question or ask for help with Argo data queries.")),
         ("error", .vStr e),
         ("session_id", .vStr (resolveSessionId env sid)),
         ("timestamp", .vStr env.nowIso),
         ("processing_time_ms", .vInt 0)] := by
  simp only [process_query]
  rw [h]
  rfl

/-- Environment whose understanding capability always raises. -/
def c8_env : OrchEnv where
  understand := fun _ _ => .error "boom"
  generateSql := fun _ => .error "unused"
  generateResponse := fun _ _ _ => .error "unused"
  semanticSearch := fun _ _ _ => .error "unused"
  dbExec := fun _ => .error "unused"
  sessionNow := "TS0"
  nowIso := "TS1"
  procTimeMs := 0

/-- C8 witness: an NLU outage with no session id produces the apology
response with the generated fallback session id. -/
theorem C8_error_response_witness :
    process_query c8_env "hello" none
      = [("response_text", .vStr
            "I apologize, but I encountered an error processing your query: boom. Please try rephrasing your question or ask for help with Argo data queries."),
         ("error", .vStr "boom"),
         ("session_id", .vStr "session_TS0"),
         ("timestamp", .vStr "TS1"),
         ("processing_time_ms", .vInt 0)] :=
  (C8_error_response c8_env "hello" none "boom" rfl).trans (by rfl)

/-- C6 amended: in a successful run, (1) with a non-data intent the
`sql_metadata` and `data_results` fields are null and `total_data_rows`
is 0; (2) with a data intent and an executed row list `l`,
`data_results` is the first 10 rows when `l` is non-empty and null when
`l` is empty (Python truthiness of the empty list), while
`total_data_rows` is the full count; (3) `visualization` is non-null
only when `requires_visualization` is truthy and the executed row list
is non-empty. -/
theorem C6_success_fields (env : OrchEnv) (q sid : String) (qa resp : PyDict)
    (hu : env.understand q sid = .ok qa)
    (hr : process_query_attempt env q sid = .ok resp) :
    (intentIsData qa = false →
        pyGetOpt resp "sql_metadata" = some .vNone ∧
        pyGetOpt resp "data_results" = some .vNone ∧
        pyGetOpt resp "total_data_rows" = some (.vInt 0)) ∧
    (∀ sqlr l md, intentIsData qa = true →
        env.generateSql qa = .ok sqlr →
        execute_sql_safely env.dbExec sqlr = (some l, md) →
        pyGetOpt resp "data_results"
          = some (if l.isEmpty then PyVal.vNone
                  else PyVal.vList ((l.take 10).map PyVal.vDict)) ∧
        pyGetOpt resp "total_data_rows" = some (.vInt (l.length : Int))) ∧
    (∀ d, pyGetOpt resp "visualization" = some (.vDict d) →
        pyTruthy (pyGetD qa "requires_visualization" .vNone) = true ∧
        intentIsData qa = true ∧
        ∃ l, l ≠ [] ∧ ∃ sqlr md,
          env.generateSql qa = .ok sqlr ∧
          execute_sql_safely env.dbExec sqlr = (some l, md)) := by
  unfold process_query_attempt at hr
  rw [hu] at hr
  simp only [] at hr
  cases hs : sqlStep env qa with
  | error e => rw [hs] at hr; exact absurd hr (by simp)
  | ok srmd =>
    obtain ⟨sr, smd⟩ := srmd
    rw [hs] at hr
    simp only [] at hr
    cases hg : env.generateResponse qa sr (retrieve_context env qa) with
    | error e => rw [hg] at hr; exact absurd hr (by simp)
    | ok rt =>
      rw [hg] at hr
      simp only [] at hr
      have hresp : resp
          = assemble_response env qa rt sr smd (retrieve_context env qa) sid :=
        (Except.ok.inj hr).symm
      subst hresp
      refine ⟨?_, ?_, ?_⟩
      · intro hni
        simp only [sqlStep, hni, Bool.false_eq_true, if_false] at hs
        have hsr : (none : Option (List PyDict)) = sr := congrArg Prod.fst (Except.ok.inj hs)
        have hsmd : (none : Option PyDict) = smd := congrArg Prod.snd (Except.ok.inj hs)
        subst hsr
        subst hsmd
        exact ⟨rfl, rfl, rfl⟩
      · intro sqlr l md hi hgen hex
        simp only [sqlStep, hi, if_true, hgen] at hs
        have hpair := Except.ok.inj hs
        rw [hex] at hpair
        have hsr : (some l : Option (List PyDict)) = sr := congrArg Prod.fst hpair
        have hsmd2 : md = smd := congrArg Prod.snd hpair
        subst hsr
        subst hsmd2
        exact ⟨rfl, rfl⟩
      · intro d hviz
        have hX : pyGetOpt
            (assemble_response env qa rt sr smd (retrieve_context env qa) sid)
            "visualization"
          = some (match
              (if pyTruthy (pyGetD qa "requires_visualization" .vNone)
                  && truthyRows sr then
                create_visualization_spec qa ((sr.getD []).map PyVal.vDict)
              else none) with
            | some d0 => PyVal.vDict d0
            | none => PyVal.vNone) := rfl
        rw [hX] at hviz
        have hval := Option.some.inj hviz
        cases hcond : pyTruthy (pyGetD qa "requires_visualization" .vNone)
            && truthyRows sr with
        | false =>
          rw [hcond] at hval
          simp only [if_false, Bool.false_eq_true] at hval
          exact absurd hval (by intro hc; exact PyVal.noConfusion hc)
        | true =>
          have hand : pyTruthy (pyGetD qa "requires_visualization" PyVal.vNone) = true
              ∧ truthyRows sr = true := by simpa using hcond
          refine ⟨hand.1, ?_⟩
          cases sr with
          | none => exact absurd hand.2 (by simp [truthyRows])
          | some l =>
            have hlne : l ≠ [] := by
              intro hnil
              rw [hnil] at hand
              exact absurd hand.2 (by simp [truthyRows])
            cases hi : intentIsData qa with
            | false =>
              simp only [sqlStep, hi, Bool.false_eq_true, if_false] at hs
              have : (none : Option (List PyDict)) = some l :=
                congrArg Prod.fst (Except.ok.inj hs)
              exact absurd this (by simp)
            | true =>
              refine ⟨rfl, ⟨l, hlne, ?_⟩⟩
              simp only [sqlStep, hi, if_true] at hs
              cases hgen : env.generateSql qa with
              | error e => rw [hgen] at hs; exact absurd hs (by simp)
              | ok sqlr =>
                rw [hgen] at hs
                simp only [] at hs
                refine ⟨sqlr, smd, rfl, ?_⟩
                have := Except.ok.inj hs
                cases hex : execute_sql_safely env.dbExec sqlr with
                | mk a b =>
                  rw [hex] at this
                  have ha : a = some l := congrArg Prod.fst this
                  have hb : b = smd := congrArg Prod.snd this
                  rw [ha, hb]

/-- Environment for the C6 witness: a greeting-intent run. -/
def c6_env : OrchEnv where
  understand := fun _ _ => .ok [("intent", .vStr "greeting")]
  generateSql := fun _ => .error "unused"
  generateResponse := fun _ _ _ => .ok "hello"
  semanticSearch := fun _ _ _ => .error "no search"
  dbExec := fun _ => .error "no db"
  sessionNow := "T0"
  nowIso := "T1"
  procTimeMs := 2

/-- C6 witness: a non-data intent leaves the SQL fields null/zero. -/
theorem C6_success_fields_witness :
    pyGetOpt (process_query c6_env "hi" (some "s")) "sql_metadata"
      = some PyVal.vNone ∧
    pyGetOpt (process_query c6_env "hi" (some "s")) "data_results"
      = some PyVal.vNone ∧
    pyGetOpt (process_query c6_env "hi" (some "s")) "total_data_rows"
      = some (PyVal.vInt 0) :=
  (C6_success_fields c6_env "hi" "s" [("intent", PyVal.vStr "greeting")]
      (assemble_response c6_env [("intent", PyVal.vStr "greeting")] "hello"
        none none
        (retrieve_context c6_env [("intent", PyVal.vStr "greeting")]) "s")
      rfl rfl).1 rfl

/-- Environment for the C6 counterexample: a data-intent run whose
execution succeeds with zero rows. -/
def c6cex_env : OrchEnv where
  understand := fun _ _ => .ok [("intent", .vStr "data_query")]
  generateSql := fun _ => .ok [("sql", .vStr "select 1 limit 1")]
  generateResponse := fun _ _ _ => .ok "done"
  semanticSearch := fun _ _ _ => .error "no search"
  dbExec := fun _ => .ok (["x"], [])
  sessionNow := "T0"
  nowIso := "T1"
  procTimeMs := 3

/-- C6 counterexample: in a successful run whose execution returned an
empty row list, `data_results` is `None` rather than the claimed first
10 rows (the empty list); `sql_metadata` shows the execution happened. -/
theorem C6_counterexample_empty_rows :
    pyGetOpt (process_query c6cex_env "q" (some "s")) "data_results"
      = some PyVal.vNone ∧
    pyGetOpt (process_query c6cex_env "q" (some "s")) "data_results"
      ≠ some (PyVal.vList []) ∧
    pyGetOpt (process_query c6cex_env "q" (some "s")) "sql_metadata"
      = some (PyVal.vDict
          [("query", PyVal.vStr "select 1 limit 1"),
           ("explanation", PyVal.vNone),
           ("rows_returned", PyVal.vInt 0),
           ("safety_checks", PyVal.vList [])]) := by
  refine ⟨rfl, ?_, rfl⟩
  intro hc
  have h0 : pyGetOpt (process_query c6cex_env "q" (some "s")) "data_results"
      = some PyVal.vNone := rfl
  rw [h0] at hc
  exact PyVal.noConfusion (Option.some.inj hc)
